import Mathlib

/-!
Shallow embedding of the telemetry ingestion subsystem of
`src/sdl_orbitsim.cpp` (satellite orbit simulator).

The two functions under scrutiny are `createSocket` (connection manager,
lines 68-122) and `getSatelliteData` (telemetry poller, lines 150-221),
together with the fragment of `main`'s render loop that threads the
telemetry state through the poller (lines 271-280).

System-call outcomes (`poll`, `recv`, `connect`) are modelled as an
explicit list of events consumed in order; each loop iteration of the
C code consumes one event.  The parsing pipeline (`strtok` on `","`
followed by `atoi` on each token) is modelled character-exactly on
`List Char`.
-/

namespace OrbitSim

/-! ### Character classes (C locale), numeric on code points -/

/-- C `isspace` in the default locale: space (32), and 9..13
(tab, newline, vertical tab, form feed, carriage return). -/
def isSpaceC (c : Char) : Bool :=
  decide (c.toNat = 32 ∨ (9 ≤ c.toNat ∧ c.toNat ≤ 13))

/-- C `isdigit`: code points 48..57, i.e. the ASCII digits. -/
def isDigitC (c : Char) : Bool :=
  decide (48 ≤ c.toNat ∧ c.toNat ≤ 57)

/-! ### `atoi`

`atoi` skips leading whitespace, consumes an optional sign (`-` is 45,
`+` is 43), then the longest run of leading digits; it returns 0 when no
digit follows.  (Values here are unbounded `Int`; overflow of C `int` is
outside the behaviours the claims exercise.) -/

/-- Value of a digit string read in base 10 (`atoi`'s accumulation loop). -/
def digitsToNat (t : List Char) : Nat :=
  t.foldl (fun a c => 10 * a + (c.toNat - 48)) 0

/-- `atoi` after the leading whitespace is gone: optional sign, then the
longest leading digit run. -/
def atoiSigned : List Char → Int
  | [] => 0
  | c :: u =>
    if c.toNat = 45 then - (digitsToNat (u.takeWhile isDigitC) : Int)
    else if c.toNat = 43 then (digitsToNat (u.takeWhile isDigitC) : Int)
    else (digitsToNat ((c :: u).takeWhile isDigitC) : Int)

/-- C `atoi` on a character list. -/
def atoi (s : List Char) : Int :=
  atoiSigned (s.dropWhile isSpaceC)

/-! ### `strtok(buf, ",")`

`strtok` with delimiter set `","` returns the maximal nonempty runs of
non-comma characters of the C string, in order; the C string ends at the
first NUL (code point 0).  `splitAux` produces the (possibly empty)
fields between commas; the token list filters out the empty ones. -/

/-- Fields between commas, stopping at NUL; `acc` is the reversed
current field. -/
def splitAux : List Char → List Char → List (List Char)
  | [], acc => [acc.reverse]
  | c :: rest, acc =>
    if c.toNat = 0 then [acc.reverse]
    else if c.toNat = 44 then acc.reverse :: splitAux rest []
    else splitAux rest (c :: acc)

/-- The successive `strtok(…, ",")` results: nonempty fields only. -/
def strtokComma (s : List Char) : List (List Char) :=
  (splitAux s []).filter (fun t => !t.isEmpty)

/-- The parsing loop of `getSatelliteData` (lines 204-210): push
`atoi(token)` for every `strtok` token, in order. -/
def parse (s : List Char) : List Int :=
  (strtokComma s).map atoi

/-- Convenience wrapper to state concrete examples on string literals. -/
def parseStr (s : String) : List Int :=
  parse s.data

/-! ### `recv` size bug (line 179)

`recv(socket_desc, buf, sizeof(buf)-1, 0)` is called with `buf` of type
`char*`, so `sizeof(buf)` is the size of the pointer (8 on LP64), not
the 1024-byte array in `main`: the call requests at most 7 bytes. -/

/-- Bytes requested per `recv`: `sizeof(char*) - 1 = 7` on LP64. -/
def recvCap : Nat := 7

/-- The bytes a `recv` actually delivers out of the pending stream data. -/
def recvTake (pending : List Char) : List Char :=
  pending.take recvCap

/-- The stream data left in the socket buffer for later calls. -/
def recvRest (pending : List Char) : List Char :=
  pending.drop recvCap

/-! ### The poller `getSatelliteData` (lines 150-221)

Each iteration of the `while (true)` loop performs one `poll(fds,1,10)`
and, when that reports readability, one `recv`.  One `Outcome` event
packages the pair of system-call results an iteration observes. -/

/-- What one loop iteration observes from `poll`/`recv`. -/
inductive Outcome where
  /-- `poll` returned -1. -/
  | pollErr
  /-- `poll` returned 0 (timeout, no data within the 10 ms window). -/
  | timeout
  /-- `poll` returned positive but `revents` lacks `POLLIN`. -/
  | readyNoPollin
  /-- readable, but `recv` failed with `EWOULDBLOCK`. -/
  | readyWouldBlock
  /-- readable, but `recv` failed with some other errno. -/
  | readyErrOther
  /-- readable and `recv` returned 0: peer closed the connection. -/
  | readyClosed
  /-- readable and `recv` delivered data; `pending` is what the socket
  holds, of which at most `recvCap` bytes are read. -/
  | readyData (pending : List Char)
deriving DecidableEq

/-- Which branch ended the loop. -/
inductive ExitKind where
  | gotData | timedOut | pollError | readError | peerClosed | envExhausted
deriving DecidableEq

/-- Observable result of one `getSatelliteData` call: the returned
vector, the branch that ended the loop, and how many `poll` and `recv`
system calls were performed. -/
structure PollResult where
  result : List Int
  exit : ExitKind
  polls : Nat
  recvs : Nat
deriving DecidableEq

/-- `getSatelliteData(socket_desc, buf, default_params)` over an event
list; `prev` is the caller-supplied `default_params`.  Mirrors the C
control flow branch by branch:
* `poll == -1`: `break` — falls to `return sat_params` with `sat_params`
  still empty;
* `poll == 0`: `sat_params = default_params; break`;
* ready without `POLLIN`: print and loop again;
* `recv == -1 && errno == EWOULDBLOCK`: `continue` (another iteration);
* `recv == -1` otherwise: `break` — returns the empty `sat_params`;
* `recv == 0`: `break` — returns the empty `sat_params`;
* `recv > 0`: NUL-terminate at the received length, tokenize, and
  `return sat_params` immediately (whatever its length). -/
def getSatelliteData : List Outcome → List Int → PollResult
  | [], _ => ⟨[], ExitKind.envExhausted, 0, 0⟩
  | Outcome.pollErr :: _, _ => ⟨[], ExitKind.pollError, 1, 0⟩
  | Outcome.timeout :: _, prev => ⟨prev, ExitKind.timedOut, 1, 0⟩
  | Outcome.readyNoPollin :: rest, prev =>
      ⟨(getSatelliteData rest prev).result, (getSatelliteData rest prev).exit,
       (getSatelliteData rest prev).polls + 1, (getSatelliteData rest prev).recvs⟩
  | Outcome.readyWouldBlock :: rest, prev =>
      ⟨(getSatelliteData rest prev).result, (getSatelliteData rest prev).exit,
       (getSatelliteData rest prev).polls + 1, (getSatelliteData rest prev).recvs + 1⟩
  | Outcome.readyErrOther :: _, _ => ⟨[], ExitKind.readError, 1, 1⟩
  | Outcome.readyClosed :: _, _ => ⟨[], ExitKind.peerClosed, 1, 1⟩
  | Outcome.readyData pending :: _, _ =>
      ⟨parse (recvTake pending), ExitKind.gotData, 1, 1⟩

/-! ### `main`'s state threading (lines 271-280) -/

/-- Lines 271-274: before calling the poller, `main` replaces an empty
`sat_params` by the compiled-in default `{2, 10}`. -/
def mainNormalize (st : List Int) : List Int :=
  if st = [] then [2, 10] else st

/-- One frame of `main`'s loop, restricted to the telemetry state:
normalize, then call the poller with the current state as
`default_params`. -/
def mainFrame (env : List Outcome) (st : List Int) : List Int :=
  (getSatelliteData env (mainNormalize st)).result

/-! ### The connection manager `createSocket` (lines 68-122)

The retry loop: on a transient failure (`ENOENT`/`ECONNREFUSED`), if the
`fallback` counter already exceeds 2 it returns 0 (exhausted); otherwise
it sleeps 1000 ms, increments `fallback`, and tries again.  Any other
`connect` error closes the socket and returns 1 (fatal). -/

/-- Result of one `connect(2)` attempt. -/
inductive ConnectOutcome where
  | success | transient | fatalErr
deriving DecidableEq

/-- How `createSocket` ended. -/
inductive CreateExit where
  | connected | exhausted | fatal | envExhausted
deriving DecidableEq

/-- Observable result of `createSocket`: how it ended, how many
sleep-and-retry cycles it performed, and how many `connect` calls it
made. -/
structure CreateResult where
  exit : CreateExit
  retries : Nat
  attempts : Nat
deriving DecidableEq

/-- The `while (!connected)` loop, with the current `fallback` counter. -/
def createSocketLoop : List ConnectOutcome → Nat → CreateResult
  | [], _ => ⟨CreateExit.envExhausted, 0, 0⟩
  | ConnectOutcome.success :: _, _ => ⟨CreateExit.connected, 0, 1⟩
  | ConnectOutcome.fatalErr :: _, _ => ⟨CreateExit.fatal, 0, 1⟩
  | ConnectOutcome.transient :: rest, fallback =>
    if fallback > 2 then ⟨CreateExit.exhausted, 0, 1⟩
    else
      ⟨(createSocketLoop rest (fallback + 1)).exit,
       (createSocketLoop rest (fallback + 1)).retries + 1,
       (createSocketLoop rest (fallback + 1)).attempts + 1⟩

/-- `createSocket` starts its loop with `fallback = 0`. -/
def createSocket (env : List ConnectOutcome) : CreateResult :=
  createSocketLoop env 0

/-! ### Token classes used to state the parsing claims -/

/-- A character `strtok` keeps inside a token: neither NUL nor comma. -/
def tokenChar (c : Char) : Bool :=
  decide (c.toNat ≠ 0 ∧ c.toNat ≠ 44)

/-- A valid decimal integer literal: an optional minus sign followed by
a nonempty run of digits, and nothing else. -/
def validIntToken (t : List Char) : Bool :=
  match t with
  | [] => false
  | c :: u =>
    if c.toNat = 45 then !u.isEmpty && u.all isDigitC
    else isDigitC c && u.all isDigitC

/-- The integer value of a valid decimal token. -/
def tokenValue (t : List Char) : Int :=
  match t with
  | [] => 0
  | c :: u =>
    if c.toNat = 45 then - (digitsToNat u : Int) else (digitsToNat (c :: u) : Int)

/-- The wire image of a token list: the tokens joined by commas. -/
def joinComma : List (List Char) → List Char
  | [] => []
  | [t] => t
  | t :: u :: ts => t ++ ',' :: joinComma (u :: ts)


/-! ## Helper lemmas -/

theorem all_digits_takeWhile (t : List Char) (h : t.all isDigitC = true) :
    t.takeWhile isDigitC = t := by
  induction t with
  | nil => rfl
  | cons c u ih =>
    simp only [List.all_cons, Bool.and_eq_true] at h
    simp [List.takeWhile_cons, h.1, ih h.2]

theorem filter_nonempty_eq (ts : List (List Char)) (h : ∀ t ∈ ts, t ≠ []) :
    ts.filter (fun t => !t.isEmpty) = ts := by
  induction ts with
  | nil => rfl
  | cons t ts ih =>
    have ht : (!t.isEmpty) = true := by
      cases t with
      | nil => exact absurd rfl (h [] (List.mem_cons_self _ _))
      | cons a u => rfl
    simp [List.filter_cons, ht, ih (fun a ha => h a (List.mem_cons_of_mem _ ha))]

theorem splitAux_token_append (t : List Char) (h : t.all tokenChar = true) :
    ∀ acc s, splitAux (t ++ s) acc = splitAux s (t.reverse ++ acc) := by
  induction t with
  | nil => intro acc s; simp
  | cons c u ih =>
    intro acc s
    simp only [List.all_cons, Bool.and_eq_true] at h
    have hc := h.1
    simp only [tokenChar, decide_eq_true_eq] at hc
    have h0 : ¬ c.toNat = 0 := hc.1
    have h44 : ¬ c.toNat = 44 := hc.2
    show splitAux (c :: (u ++ s)) acc = _
    simp only [splitAux, if_neg h0, if_neg h44]
    rw [ih h.2 (c :: acc) s]
    simp [List.append_assoc]

theorem splitAux_joinComma (ts : List (List Char))
    (h : ∀ t ∈ ts, t.all tokenChar = true) (hne : ts ≠ []) :
    splitAux (joinComma ts) [] = ts := by
  induction ts with
  | nil => exact absurd rfl hne
  | cons t ts ih =>
    cases ts with
    | nil =>
      have h1 := splitAux_token_append t (h t (List.mem_cons_self _ _)) [] []
      simpa [splitAux, joinComma] using h1
    | cons u ts2 =>
      show splitAux (t ++ ',' :: joinComma (u :: ts2)) [] = t :: u :: ts2
      rw [splitAux_token_append t (h t (List.mem_cons_self _ _)) [] _]
      have hcomma : splitAux (',' :: joinComma (u :: ts2)) (t.reverse ++ []) =
          (t.reverse ++ []).reverse :: splitAux (joinComma (u :: ts2)) [] := rfl
      rw [hcomma, ih (fun a ha => h a (List.mem_cons_of_mem _ ha)) (List.cons_ne_nil _ _)]
      simp

theorem parse_joinComma (ts : List (List Char))
    (h : ∀ t ∈ ts, t.all tokenChar = true ∧ t ≠ []) :
    parse (joinComma ts) = ts.map atoi := by
  cases ts with
  | nil => rfl
  | cons t ts2 =>
    unfold parse strtokComma
    rw [splitAux_joinComma _ (fun a ha => (h a ha).1) (List.cons_ne_nil _ _)]
    rw [filter_nonempty_eq _ (fun a ha => (h a ha).2)]

theorem tokenChar_of_digit (c : Char) (h : isDigitC c = true) : tokenChar c = true := by
  simp only [isDigitC, decide_eq_true_eq] at h
  simp only [tokenChar, decide_eq_true_eq]
  omega

theorem all_tokenChar_of_all_digits (u : List Char) (h : u.all isDigitC = true) :
    u.all tokenChar = true := by
  simp only [List.all_eq_true] at h ⊢
  exact fun c hc => tokenChar_of_digit c (h c hc)

theorem valid_token_clean (t : List Char) (h : validIntToken t = true) :
    t.all tokenChar = true ∧ t ≠ [] := by
  cases t with
  | nil => simp [validIntToken] at h
  | cons c u =>
    refine ⟨?_, List.cons_ne_nil _ _⟩
    by_cases h45 : c.toNat = 45
    · simp only [validIntToken, if_pos h45, Bool.and_eq_true] at h
      simp only [List.all_cons, Bool.and_eq_true]
      refine ⟨?_, all_tokenChar_of_all_digits u h.2⟩
      simp only [tokenChar, decide_eq_true_eq]
      omega
    · simp only [validIntToken, if_neg h45, Bool.and_eq_true] at h
      simp only [List.all_cons, Bool.and_eq_true]
      exact ⟨tokenChar_of_digit c h.1, all_tokenChar_of_all_digits u h.2⟩

theorem atoi_valid (t : List Char) (h : validIntToken t = true) : atoi t = tokenValue t := by
  cases t with
  | nil => simp [validIntToken] at h
  | cons c u =>
    by_cases h45 : c.toNat = 45
    · simp only [validIntToken, if_pos h45, Bool.and_eq_true] at h
      have hs : isSpaceC c = false := by
        simp only [isSpaceC, decide_eq_false_iff_not]
        omega
      have hd : (c :: u).dropWhile isSpaceC = c :: u := by
        simp [List.dropWhile_cons, hs]
      unfold atoi
      rw [hd]
      simp only [atoiSigned, if_pos h45, tokenValue, all_digits_takeWhile u h.2]
    · simp only [validIntToken, if_neg h45, Bool.and_eq_true] at h
      have hdig := h.1
      simp only [isDigitC, decide_eq_true_eq] at hdig
      have hs : isSpaceC c = false := by
        simp only [isSpaceC, decide_eq_false_iff_not]
        omega
      have h43 : ¬ c.toNat = 43 := by omega
      have hd : (c :: u).dropWhile isSpaceC = c :: u := by
        simp [List.dropWhile_cons, hs]
      unfold atoi
      rw [hd]
      simp only [atoiSigned, if_neg h45, if_neg h43, tokenValue]
      rw [all_digits_takeWhile (c :: u) (by simp [List.all_cons, h.1, h.2])]

theorem getSatelliteData_prev_independent (env : List Outcome) :
    ∀ p q, (getSatelliteData env p).exit = (getSatelliteData env q).exit ∧
      (getSatelliteData env p).recvs = (getSatelliteData env q).recvs := by
  induction env with
  | nil => exact fun p q => ⟨rfl, rfl⟩
  | cons o rest ih =>
    intro p q
    cases o with
    | pollErr => exact ⟨rfl, rfl⟩
    | timeout => exact ⟨rfl, rfl⟩
    | readyNoPollin => exact ⟨(ih p q).1, (ih p q).2⟩
    | readyWouldBlock => exact ⟨(ih p q).1, congrArg (fun n => n + 1) (ih p q).2⟩
    | readyErrOther => exact ⟨rfl, rfl⟩
    | readyClosed => exact ⟨rfl, rfl⟩
    | readyData pending => exact ⟨rfl, rfl⟩


/-! ## Claim theorems -/

/-- Claim C1 (code bug, evaluation at the failing input): a received frame
that parses to fewer than 2 integers DOES overwrite a valid prior state.
With prior state `[5, 200]` and the 1-byte message `"7"`, the poller
returns `[7]`, so `main`'s unconditional `sat_params[1]` (line 278) is out
of bounds afterwards. -/
theorem C1_short_frame_overwrites :
    (getSatelliteData [Outcome.readyData ('7' :: [])] [5, 200]).result = [7] ∧
    ((getSatelliteData [Outcome.readyData ('7' :: [])] [5, 200]).result).get? 1 = none ∧
    (getSatelliteData [Outcome.readyData ('7' :: [])] [5, 200]).result ≠ [5, 200] := by
  decide

/-- Claim C2 counterexample: parsing `"3,abc,120"` does not yield
`[3, 120]`; `atoi("abc")` is 0 and IS inserted, giving `[3, 0, 120]`. -/
theorem C2_counterexample :
    parseStr "3,abc,120" ≠ [3, 120] ∧ parseStr "3,abc,120" = [3, 0, 120] := by
  decide

/-- Claim C2 (amended): parsing splits on `','`, drops empty fields, and
maps `atoi` over every remaining token in order; a token that fails
integer conversion contributes `atoi`'s failure value 0 instead of being
skipped. -/
theorem C2_tokens_map_atoi :
    ∀ ts : List (List Char), (∀ t ∈ ts, t.all tokenChar = true ∧ t ≠ []) →
      parse (joinComma ts) = ts.map atoi :=
  parse_joinComma

/-- Claim C2 witness: the amended theorem at the tokens of
`"3,abc,120"`. -/
theorem C2_tokens_map_atoi_witness :
    parseStr "3,abc,120" = [3, 0, 120] := by
  have h := C2_tokens_map_atoi
      (('3' :: []) :: ('a' :: 'b' :: 'c' :: []) :: ('1' :: '2' :: '0' :: []) :: [])
      (by decide)
  calc parseStr "3,abc,120"
      = parse (joinComma
          (('3' :: []) :: ('a' :: 'b' :: 'c' :: []) :: ('1' :: '2' :: '0' :: []) :: [])) := by
        decide
    _ = List.map atoi
          (('3' :: []) :: ('a' :: 'b' :: 'c' :: []) :: ('1' :: '2' :: '0' :: []) :: []) := h
    _ = [3, 0, 120] := by decide

/-- Claim C3 counterexample: a call that observes a zero-byte read ends
peer-closed, yet the very next frame's call (state threaded through
`main`) performs a `recv` again — nothing stops polling. -/
theorem C3_counterexample :
    (getSatelliteData [Outcome.readyClosed] [5, 200]).exit = ExitKind.peerClosed ∧
    (getSatelliteData [Outcome.readyData ('5' :: [])]
        (mainNormalize (getSatelliteData [Outcome.readyClosed] [5, 200]).result)).recvs = 1 := by
  decide

/-- Claim C3 (amended): a zero-byte read ends the call with the
peer-closed outcome and an empty result, but the program keeps no
per-connection closed flag: a call's exit kind and read count are
independent of the state carried between calls, so subsequent calls
attempt reads exactly as a fresh call would. -/
theorem C3_peer_close_stateless :
    (∀ prev rest, getSatelliteData (Outcome.readyClosed :: rest) prev =
        ⟨[], ExitKind.peerClosed, 1, 1⟩) ∧
    (∀ env p q, (getSatelliteData env p).exit = (getSatelliteData env q).exit ∧
        (getSatelliteData env p).recvs = (getSatelliteData env q).recvs) :=
  ⟨fun _ _ => rfl, getSatelliteData_prev_independent⟩

/-- Claim C4 counterexample: on a readiness-wait error and on a
non-would-block read error the call returns the empty vector, not the
caller-supplied previous state `[5, 200]`. -/
theorem C4_counterexample :
    (getSatelliteData [Outcome.pollErr] [5, 200]).result = [] ∧
    (getSatelliteData [Outcome.readyErrOther] [5, 200]).result = [] ∧
    (([] : List Int) ≠ [5, 200]) := by
  decide

/-- Claim C4 (amended): every readiness-wait error and every
non-would-block read error breaks out of the loop with `sat_params`
still empty, so the call returns the empty state rather than the
previous one; `main` then substitutes the default `{2, 10}` (not the
previous value) on the following frame. -/
theorem C4_error_paths_return_empty :
    (∀ prev rest, getSatelliteData (Outcome.pollErr :: rest) prev =
        ⟨[], ExitKind.pollError, 1, 0⟩) ∧
    (∀ prev rest, getSatelliteData (Outcome.readyErrOther :: rest) prev =
        ⟨[], ExitKind.readError, 1, 1⟩) ∧
    mainNormalize [] = [2, 10] :=
  ⟨fun _ _ => rfl, fun _ _ => rfl, rfl⟩

/-- Claim C5 counterexample: after a would-block read the loop
continues: with events [would-block, data "7"] a single call performs 2
readiness waits and 2 reads, and returns the new data instead of ending
at the would-block with the previous state. -/
theorem C5_counterexample :
    (getSatelliteData [Outcome.readyWouldBlock, Outcome.readyData ('7' :: [])] [5, 200]).polls
        = 2 ∧
    (getSatelliteData [Outcome.readyWouldBlock, Outcome.readyData ('7' :: [])] [5, 200]).recvs
        = 2 ∧
    (getSatelliteData [Outcome.readyWouldBlock, Outcome.readyData ('7' :: [])] [5, 200]).result
        ≠ [5, 200] := by
  decide

/-- Claim C5 (amended): a would-block read outcome does not end the
call; it adds one readiness wait and one read and continues with the
rest of the loop, so a single invocation may wait and read several
times (once per iteration) until a terminating outcome. -/
theorem C5_wouldblock_continues_loop :
    ∀ prev rest, getSatelliteData (Outcome.readyWouldBlock :: rest) prev =
      ⟨(getSatelliteData rest prev).result, (getSatelliteData rest prev).exit,
       (getSatelliteData rest prev).polls + 1, (getSatelliteData rest prev).recvs + 1⟩ :=
  fun _ _ => rfl

/-- Claim C6: with the hardcoded limit (`fallback > 2`, i.e.
max_attempts = 3 retries), four consecutive transient connect failures
make `createSocket` return the exhausted outcome after exactly 3
sleep-and-retry cycles (4 `connect` calls), and exhaustion is not the
fatal outcome. -/
theorem C6_retry_exhaustion :
    (∀ rest, createSocket (ConnectOutcome.transient :: ConnectOutcome.transient ::
        ConnectOutcome.transient :: ConnectOutcome.transient :: rest) =
      ⟨CreateExit.exhausted, 3, 4⟩) ∧
    CreateExit.exhausted ≠ CreateExit.fatal :=
  ⟨fun _ => rfl, by decide⟩

/-- Claim C7 counterexample: the message `","` parses to the empty list
and the call returns that empty list, not the previous state
`[5, 200]`. -/
theorem C7_counterexample :
    (getSatelliteData [Outcome.readyData (',' :: [])] [5, 200]).result = [] ∧
    (getSatelliteData [Outcome.readyData (',' :: [])] [5, 200]).result ≠ [5, 200] := by
  decide

/-- Claim C7 (amended): a received message whose parse result is empty
makes the call return the empty parse result itself — the previous
state is not retained (on the next frame `main` replaces the empty
state with the default `{2, 10}`). -/
theorem C7_empty_parse_returned (prev : List Int) (rest : List Outcome)
    (pending : List Char) (h : parse (recvTake pending) = []) :
    (getSatelliteData (Outcome.readyData pending :: rest) prev).result = [] :=
  h

/-- Claim C7 witness: the amended theorem at the message `","`. -/
theorem C7_empty_parse_returned_witness :
    parse (recvTake (',' :: [])) = [] ∧
    (getSatelliteData [Outcome.readyData (',' :: [])] [5, 200]).result = [] :=
  ⟨by decide, C7_empty_parse_returned [5, 200] [] (',' :: []) (by decide)⟩

/-- Claim C8: whenever the readiness wait times out, the call returns
the caller-supplied previous state unchanged (with no read performed),
exactly as if no bytes were available. -/
theorem C8_timeout_returns_previous :
    ∀ prev rest, getSatelliteData (Outcome.timeout :: rest) prev =
      ⟨prev, ExitKind.timedOut, 1, 0⟩ :=
  fun _ _ => rfl

/-- Claim C9: a message made of valid comma-separated decimal integer
tokens parses to exactly the tokens' integer values in their original
order. -/
theorem C9_valid_csv_parses_in_order :
    ∀ ts : List (List Char), (∀ t ∈ ts, validIntToken t = true) →
      parse (joinComma ts) = ts.map tokenValue := by
  intro ts h
  rw [parse_joinComma ts (fun t ht => valid_token_clean t (h t ht))]
  exact List.map_congr_left (fun t ht => atoi_valid t (h t ht))

/-- Claim C9 witness: the theorem at the tokens of `"3,120"`. -/
theorem C9_valid_csv_witness :
    (∀ t ∈ (('3' :: []) :: ('1' :: '2' :: '0' :: []) :: ([] : List (List Char))),
        validIntToken t = true) ∧
    parseStr "3,120" = [3, 120] := by
  refine ⟨by decide, ?_⟩
  have h := C9_valid_csv_parses_in_order
      (('3' :: []) :: ('1' :: '2' :: '0' :: []) :: []) (by decide)
  calc parseStr "3,120"
      = parse (joinComma (('3' :: []) :: ('1' :: '2' :: '0' :: []) :: [])) := by decide
    _ = List.map tokenValue (('3' :: []) :: ('1' :: '2' :: '0' :: []) :: []) := h
    _ = [3, 120] := by decide

/-- Claim C10: each data read requests `sizeof(char*) - 1 = 7` bytes
(the pointer's size, not the caller's 1024-byte array), so at most 7
bytes are consumed per call, the remainder staying in the stream; the
11-byte message `"123,456,789"` is truncated to `"123,456"` and parses
to `[123, 456]`. -/
theorem C10_recv_bounded_by_pointer_size :
    recvCap = 7 ∧
    (∀ pending : List Char,
        (recvTake pending).length ≤ recvCap ∧
        recvTake pending ++ recvRest pending = pending) ∧
    (∀ prev rest pending,
        (getSatelliteData (Outcome.readyData pending :: rest) prev).result =
          parse (recvTake pending)) ∧
    (∀ prev : List Int,
        (getSatelliteData [Outcome.readyData ("123,456,789".data)] prev).result
          = [123, 456]) := by
  refine ⟨rfl, fun pending => ⟨?_, List.take_append_drop _ _⟩, fun _ _ _ => rfl, fun _ => ?_⟩
  · rw [recvTake, List.length_take]
    exact min_le_left _ _
  · exact (by decide : parse (recvTake ("123,456,789".data)) = [123, 456])

end OrbitSim
